import Mathlib

/-!
# Verification of the NetBox provider CRUD adapters

Shallow embedding of three adapters of the terraform-provider-netbox
repository:

* the IP-range resource adapter (`resource_netbox_ip_range.go`, given as
  `src/unnamed/part_000`),
* the device-type resource adapter (`src/netbox/resource_netbox_device_type.go`),
* the VLAN-group lookup data source (`src/netbox/data_source_netbox_vlan_group.go`).

The Inventory Service (the remote NetBox API) is modelled as a record of
response functions passed to each adapter operation; every operation returns
the Go error it would return (`none` for a nil error), the resource state
after all `d.Set`/`d.SetId` calls, and the trace of Inventory Service calls
it issued, in order.

Go conventions kept in the embedding:

* a Go `error` is `Option GoError`, where `GoError` carries the dynamic type
  name used by type assertions such as `err.(*ipam.IpamIPRangesReadDefault)`,
  the HTTP status code and a message;
* a Go pointer field (`*string`, `*int64`, `*float64`) is an `Option`;
  a plain Go `string`/`bool` field keeps its zero value `""`/`false`;
* `d.Get` on an unset field yields the schema default (or the type's zero
  value when no default is declared); `d.GetOk` yields `some v` exactly when
  the field's effective value — the set value, or the materialized schema
  default when one is declared — is non-zero, the documented SDK semantics
  (for the default-free fields this reduces to set-and-non-zero);
* `float64` rack-unit heights are exact decimal constants in the source, so
  they are embedded as `ℚ`.
-/

/-- A Go `error` value: `typ` is the dynamic type name (what a Go type
assertion such as `err.(*ipam.IpamIPRangesReadDefault)` matches on),
`code` is the HTTP status code carried by go-swagger default responses,
`msg` the message. -/
structure GoError where
  typ : String
  code : Int
  msg : String
deriving DecidableEq, Repr

/-- Base-10 digit-string value: `none` unless every character is a digit. -/
def parseNatDigitsAux (acc : Nat) : List Char → Option Nat
  | [] => some acc
  | c :: cs =>
      if 48 ≤ c.toNat ∧ c.toNat ≤ 57 then
        parseNatDigitsAux (acc * 10 + (c.toNat - 48)) cs
      else
        none

/-- A non-empty base-10 digit string's value. -/
def parseNatDigits : List Char → Option Nat
  | [] => none
  | l => parseNatDigitsAux 0 l

/-- `strconv.ParseInt(s, 10, 64)` with the error ignored, as every adapter
does (`id, _ := strconv.ParseInt(d.Id(), 10, 64)`): an optional sign
followed by a non-empty digit string; the value is 0 when the string does
not parse. -/
def parseInt64 (s : String) : Int :=
  match s.data with
  | '-' :: cs => ((parseNatDigits cs).map fun n => -(n : Int)).getD 0
  | '+' :: cs => ((parseNatDigits cs).map fun n => (n : Int)).getD 0
  | cs => ((parseNatDigits cs).map fun n => (n : Int)).getD 0

/-- `strconv.FormatInt(n, 10)`. -/
def formatInt (n : Int) : String :=
  toString n

/-- `validation.StringInSlice(valid, false)`: case-sensitive membership. -/
def stringInSlice (valid : List String) (s : String) : Bool :=
  valid.contains s

/-- The kind of an Inventory Service call, used to state claims about call
sequences uniformly across resource kinds. -/
inductive CallKind where
  | create
  | read
  | update
  | delete
  | list
deriving DecidableEq, Repr

/-! ## IP-range adapter (`src/unnamed/part_000`) -/

/-- `var resourceNetboxIPRangeStatusOptions = []string{"active", "reserved", "deprecated"}` -/
def resourceNetboxIPRangeStatusOptions : List String :=
  ["active", "reserved", "deprecated"]

/-- The `models.WritableIPRange` payload, with exactly the fields the
adapter assigns: pointer fields are `Option`, plain `string` fields keep
their zero value `""` when never assigned. -/
structure WritableIPRange where
  startAddress : Option String := none
  endAddress : Option String := none
  status : String := ""
  description : String := ""
  comments : String := ""
  vrf : Option Int := none
  tenant : Option Int := none
  role : Option Int := none
  tags : List String := []
deriving DecidableEq, Repr

/-- A nested reference object in a read payload (only its `ID` is used). -/
structure NestedRef where
  id : Int
deriving DecidableEq, Repr

/-- The status object of an IP-range read payload (`Status.Value` is used). -/
structure StatusObj where
  value : String
deriving DecidableEq, Repr

/-- The payload of a successful `IpamIPRangesRead` response, with the fields
the adapter reads. -/
structure IPRangeReadPayload where
  startAddress : Option String := none
  endAddress : Option String := none
  status : Option StatusObj := none
  vrf : Option NestedRef := none
  tenant : Option NestedRef := none
  role : Option NestedRef := none
  description : String := ""
  comments : String := ""
  tags : List String := []
deriving DecidableEq, Repr

/-- The `schema.ResourceData` of the IP-range resource: `id` is the tracked
identifier (`""` when cleared), optional schema fields are `none` when unset. -/
structure IPRangeState where
  id : String := ""
  start_address : String := ""
  end_address : String := ""
  status : Option String := none
  tenant_id : Option Int := none
  role_id : Option Int := none
  vrf_id : Option Int := none
  description : Option String := none
  comments : Option String := none
  tags : List String := []
deriving DecidableEq, Repr

/-- `d.Get("status")` on the IP-range schema: the set value, else the
declared `Default: "active"`. -/
def IPRangeState.getStatus (d : IPRangeState) : String :=
  d.status.getD "active"

/-- `d.GetOk` on a `TypeInt` field: `some v` exactly when the field is set
to a non-zero value (the SDK's `GetOk` reports `ok = false` for zero
values). -/
def getOkInt (v : Option Int) : Option Int :=
  v.bind fun n => if n = 0 then none else some n

/-- `d.GetOk` on a `TypeString` field. -/
def getOkStr (v : Option String) : Option String :=
  v.bind fun s => if s = "" then none else some s

/-- Modelled from the spec: the helper `getOptionalStr(d, key, useSpaceWhenEmpty)`
is not among the provided sources (only its call sites are). Per the spec's
Field Codec optionality rules it returns the field's set value; when the
field is unset and `useSpaceWhenEmpty` holds it returns a single space
(the API's "clear" marker for free-text fields), else the empty string. -/
def getOptionalStr (v : Option String) (useSpaceWhenEmpty : Bool) : String :=
  match getOkStr v with
  | some s => s
  | none => if useSpaceWhenEmpty then " " else ""

/-- Modelled from the spec: tag-set resolution
(`getNestedTagListFromResourceDataSet`) is an external Tag Resolver
collaborator; the spec treats it as name→identifier resolution outside the
Inventory Service CRUD interface. It is embedded as the identity on the
record's tag list, and its calls are not Inventory Service calls. -/
def resolveTags (tags : List String) : List String :=
  tags

/-- The `models.WritableIPRange` built by `resourceNetboxIPRangeCreate`
(lines 95–104 of the source): note `Comments` is never assigned there. -/
def mkIPRangeCreateData (d : IPRangeState) : WritableIPRange :=
  { startAddress := some d.start_address
    endAddress := some d.end_address
    status := d.getStatus
    description := getOptionalStr d.description true
    tags := resolveTags d.tags }

/-- The `models.WritableIPRange` built by `resourceNetboxIPRangeUpdate`
(lines 170–191 of the source): `Vrf`/`Tenant`/`Role` are assigned only when
`d.GetOk` reports them set to a non-zero value. -/
def mkIPRangeUpdateData (d : IPRangeState) : WritableIPRange :=
  { startAddress := some d.start_address
    endAddress := some d.end_address
    status := d.getStatus
    description := getOptionalStr d.description true
    comments := getOptionalStr d.comments true
    vrf := getOkInt d.vrf_id
    tenant := getOkInt d.tenant_id
    role := getOkInt d.role_id
    tags := resolveTags d.tags }

/-- One Inventory Service call issued by the IP-range adapter, with the
parameters it carried. -/
inductive IPRangeCall where
  | create (data : WritableIPRange)
  | read (id : Int)
  | update (id : Int) (data : WritableIPRange)
  | delete (id : Int)
deriving DecidableEq, Repr

/-- The kind of an IP-range service call. -/
def IPRangeCall.kind : IPRangeCall → CallKind
  | .create _ => .create
  | .read _ => .read
  | .update _ _ => .update
  | .delete _ => .delete

/-- The Inventory Service as seen by the IP-range adapter: one response
function per endpoint. `create` answers with the created object's `ID`. -/
structure IPRangeService where
  create : WritableIPRange → Except GoError Int
  read : Int → Except GoError IPRangeReadPayload
  update : Int → WritableIPRange → Except GoError Unit
  delete : Int → Except GoError Unit

/-- Outcome of one adapter operation: the returned Go error (`none` = nil),
the resource state after all `d.Set`/`d.SetId` calls, and the ordered trace
of Inventory Service calls. -/
structure IPRangeOutcome where
  error : Option GoError := none
  state : IPRangeState
  trace : List IPRangeCall := []
deriving DecidableEq, Repr

/-- `resourceNetboxIPRangeRead`: a `*ipam.IpamIPRangesReadDefault` error
with code 404 clears the identifier and returns nil; any other error is
returned; on success every payload field is written into state (nested
references and pointer fields only when present). -/
def resourceNetboxIPRangeRead (svc : IPRangeService) (d : IPRangeState) :
    IPRangeOutcome :=
  let id := parseInt64 d.id
  match svc.read id with
  | .error e =>
      if e.typ = "IpamIPRangesReadDefault" ∧ e.code = 404 then
        { error := none, state := { d with id := "" }, trace := [.read id] }
      else
        { error := some e, state := d, trace := [.read id] }
  | .ok p =>
      let d := match p.startAddress with
        | some s => { d with start_address := s }
        | none => d
      let d := match p.endAddress with
        | some s => { d with end_address := s }
        | none => d
      let d := match p.status with
        | some st => { d with status := some st.value }
        | none => d
      let d := match p.vrf with
        | some r => { d with vrf_id := some r.id }
        | none => d
      let d := { d with description := some p.description }
      let d := { d with comments := some p.comments }
      let d := match p.tenant with
        | some r => { d with tenant_id := some r.id }
        | none => d
      let d := match p.role with
        | some r => { d with role_id := some r.id }
        | none => d
      let d := { d with tags := p.tags }
      { error := none, state := d, trace := [.read id] }

/-- `resourceNetboxIPRangeUpdate`: encodes the full payload, issues the
update call, and on success re-invokes Read. -/
def resourceNetboxIPRangeUpdate (svc : IPRangeService) (d : IPRangeState) :
    IPRangeOutcome :=
  let id := parseInt64 d.id
  let data := mkIPRangeUpdateData d
  match svc.update id data with
  | .error e => { error := some e, state := d, trace := [.update id data] }
  | .ok _ =>
      let r := resourceNetboxIPRangeRead svc d
      { r with trace := .update id data :: r.trace }

/-- `resourceNetboxIPRangeCreate`: encodes the create payload, issues the
create call, stores the returned identifier, then returns
`resourceNetboxIPRangeUpdate(d, m)` — the update, not the read. -/
def resourceNetboxIPRangeCreate (svc : IPRangeService) (d : IPRangeState) :
    IPRangeOutcome :=
  let data := mkIPRangeCreateData d
  match svc.create data with
  | .error e => { error := some e, state := d, trace := [.create data] }
  | .ok newId =>
      let d := { d with id := formatInt newId }
      let r := resourceNetboxIPRangeUpdate svc d
      { r with trace := .create data :: r.trace }

/-- `resourceNetboxIPRangeDelete`: a `*ipam.IpamIPRangesDeleteDefault`
error with code 404 clears the identifier and returns nil; any other error
is returned; success returns nil. -/
def resourceNetboxIPRangeDelete (svc : IPRangeService) (d : IPRangeState) :
    IPRangeOutcome :=
  let id := parseInt64 d.id
  match svc.delete id with
  | .error e =>
      if e.typ = "IpamIPRangesDeleteDefault" ∧ e.code = 404 then
        { error := none, state := { d with id := "" }, trace := [.delete id] }
      else
        { error := some e, state := d, trace := [.delete id] }
  | .ok _ => { error := none, state := d, trace := [.delete id] }

/-- The `ValidateFunc` declared on the IP-range `status` field:
`validation.StringInSlice(resourceNetboxIPRangeStatusOptions, false)`. -/
def validateIPRangeStatus (s : String) : Bool :=
  stringInSlice resourceNetboxIPRangeStatusOptions s

/-- Validation of an IP-range record against the schema's `ValidateFunc`s
(`status` is the only IP-range field declaring one); an unset optional
field is not validated. -/
def ipRangeSchemaValid (d : IPRangeState) : Bool :=
  match d.status with
  | some s => validateIPRangeStatus s
  | none => true

/-- Modelled from the spec: the plan/apply engine (an external collaborator,
not part of the provided sources) runs every schema `ValidateFunc` before
invoking any adapter operation; a failing validation aborts with a
`ValidationError` and no Inventory Service call is made. -/
def resourceNetboxIPRangeApplyCreate (svc : IPRangeService) (d : IPRangeState) :
    IPRangeOutcome :=
  if ipRangeSchemaValid d then
    resourceNetboxIPRangeCreate svc d
  else
    { error := some ⟨"ValidationError", 0, "expected status to be one of the valid values"⟩
      state := d, trace := [] }

/-! ## Device-type adapter (`src/netbox/resource_netbox_device_type.go`) -/

/-- Modelled from the spec: `getSlug` is not among the provided sources
(only its call sites are); per the schema description the slug "will be
generated from the model". Embedded as lowercasing with spaces replaced by
hyphens. -/
def getSlug (model : String) : String :=
  String.map (fun c => if c = ' ' then '-' else c.toLower) model

/-- The `models.WritableDeviceType` payload, with exactly the fields the
adapter assigns: `Model`, `Slug`, `Manufacturer`, `UHeight` are pointers
(`Option`), `PartNumber` a plain `string` and `IsFullDepth` a plain `bool`,
so the latter two keep their zero values when never assigned. -/
structure WritableDeviceType where
  model : Option String := none
  slug : Option String := none
  manufacturer : Option Int := none
  partNumber : String := ""
  uHeight : Option ℚ := none
  isFullDepth : Bool := false
  tags : List String := []
deriving DecidableEq, Repr

/-- `d.GetOk` on a `TypeBool` field: `GetOk` reports `ok = false` for the
zero value `false`. -/
def getOkBool (v : Option Bool) : Option Bool :=
  v.bind fun b => if b then some b else none

/-- The payload of a successful `DcimDeviceTypesRead` response, with the
fields the adapter reads (`Manufacturer` is a nested reference whose `ID`
is read unconditionally). -/
structure DeviceTypeReadPayload where
  model : Option String := none
  slug : Option String := none
  manufacturer : NestedRef
  partNumber : String := ""
  uHeight : Option ℚ := none
  isFullDepth : Bool := false
  tags : List String := []
deriving DecidableEq, Repr

/-- The `schema.ResourceData` of the device-type resource. -/
structure DeviceTypeState where
  id : String := ""
  model : String := ""
  slug : Option String := none
  manufacturer_id : Option Int := none
  part_number : Option String := none
  u_height : Option ℚ := none
  is_full_depth : Option Bool := none
  tags : List String := []
deriving DecidableEq, Repr

/-- `d.Get("u_height")` on the device-type schema: the set value, else the
declared default (the source declares `Default: "1.0"`, i.e. 1.0 rack
units). -/
def DeviceTypeState.getUHeight (d : DeviceTypeState) : ℚ :=
  d.u_height.getD 1

/-- `d.GetOk("u_height")`: the SDK materializes the schema default into the
effective value, so an unset field reads as the default 1.0, and `GetOk`
reports `ok` exactly when that effective value is non-zero — only an
explicit 0 makes it report `ok = false`. -/
def DeviceTypeState.getOkUHeight (d : DeviceTypeState) : Option ℚ :=
  if d.getUHeight = 0 then none else some d.getUHeight

/-- The `models.WritableDeviceType` built by `resourceNetboxDeviceTypeCreate`
(lines 69–99 of the source): every optional field, `u_height` included,
is assigned only under `d.GetOk` — though for `u_height` the schema default
makes `GetOk` succeed on an unset field. -/
def mkDeviceTypeCreateData (d : DeviceTypeState) : WritableDeviceType :=
  { model := some d.model
    slug := some (match getOkStr d.slug with
      | none => getSlug d.model
      | some s => s)
    manufacturer := getOkInt d.manufacturer_id
    partNumber := (getOkStr d.part_number).getD ""
    uHeight := d.getOkUHeight
    isFullDepth := (getOkBool d.is_full_depth).getD false
    tags := resolveTags d.tags }

/-- The `models.WritableDeviceType` built by `resourceNetboxDeviceTypeUpdate`
(lines 148–176 of the source): identical to the create encoding except that
`UHeight` is assigned unconditionally from `d.Get("u_height")`. -/
def mkDeviceTypeUpdateData (d : DeviceTypeState) : WritableDeviceType :=
  { model := some d.model
    slug := some (match getOkStr d.slug with
      | none => getSlug d.model
      | some s => s)
    manufacturer := getOkInt d.manufacturer_id
    partNumber := (getOkStr d.part_number).getD ""
    uHeight := some d.getUHeight
    isFullDepth := (getOkBool d.is_full_depth).getD false
    tags := resolveTags d.tags }

/-- One Inventory Service call issued by the device-type adapter. -/
inductive DeviceTypeCall where
  | create (data : WritableDeviceType)
  | read (id : Int)
  | update (id : Int) (data : WritableDeviceType)
  | delete (id : Int)
deriving DecidableEq, Repr

/-- The kind of a device-type service call. -/
def DeviceTypeCall.kind : DeviceTypeCall → CallKind
  | .create _ => .create
  | .read _ => .read
  | .update _ _ => .update
  | .delete _ => .delete

/-- The Inventory Service as seen by the device-type adapter. -/
structure DeviceTypeService where
  create : WritableDeviceType → Except GoError Int
  read : Int → Except GoError DeviceTypeReadPayload
  update : Int → WritableDeviceType → Except GoError Unit
  delete : Int → Except GoError Unit

/-- Outcome of one device-type adapter operation. -/
structure DeviceTypeOutcome where
  error : Option GoError := none
  state : DeviceTypeState
  trace : List DeviceTypeCall := []
deriving DecidableEq, Repr

/-- `resourceNetboxDeviceTypeRead`: a `*dcim.DcimDeviceTypesReadDefault`
error with code 404 clears the identifier and returns nil; any other error
is returned; on success every payload field is written into state. -/
def resourceNetboxDeviceTypeRead (svc : DeviceTypeService)
    (d : DeviceTypeState) : DeviceTypeOutcome :=
  let id := parseInt64 d.id
  match svc.read id with
  | .error e =>
      if e.typ = "DcimDeviceTypesReadDefault" ∧ e.code = 404 then
        { error := none, state := { d with id := "" }, trace := [.read id] }
      else
        { error := some e, state := d, trace := [.read id] }
  | .ok p =>
      let d := { d with
        model := p.model.getD ""
        slug := some (p.slug.getD "")
        manufacturer_id := some p.manufacturer.id
        part_number := some p.partNumber
        u_height := p.uHeight
        is_full_depth := some p.isFullDepth
        tags := p.tags }
      { error := none, state := d, trace := [.read id] }

/-- `resourceNetboxDeviceTypeCreate`: encodes the payload, issues the
create call, stores the returned identifier, then returns
`resourceNetboxDeviceTypeRead(d, m)`. -/
def resourceNetboxDeviceTypeCreate (svc : DeviceTypeService)
    (d : DeviceTypeState) : DeviceTypeOutcome :=
  let data := mkDeviceTypeCreateData d
  match svc.create data with
  | .error e => { error := some e, state := d, trace := [.create data] }
  | .ok newId =>
      let d := { d with id := formatInt newId }
      let r := resourceNetboxDeviceTypeRead svc d
      { r with trace := .create data :: r.trace }

/-- `resourceNetboxDeviceTypeUpdate`: encodes the payload, issues the
partial-update call, and on success re-invokes Read. -/
def resourceNetboxDeviceTypeUpdate (svc : DeviceTypeService)
    (d : DeviceTypeState) : DeviceTypeOutcome :=
  let id := parseInt64 d.id
  let data := mkDeviceTypeUpdateData d
  match svc.update id data with
  | .error e => { error := some e, state := d, trace := [.update id data] }
  | .ok _ =>
      let r := resourceNetboxDeviceTypeRead svc d
      { r with trace := .update id data :: r.trace }

/-- `resourceNetboxDeviceTypeDelete`: a `*dcim.DcimDeviceTypesDeleteDefault`
error with code 404 clears the identifier and returns nil; any other error
is returned. -/
def resourceNetboxDeviceTypeDelete (svc : DeviceTypeService)
    (d : DeviceTypeState) : DeviceTypeOutcome :=
  let id := parseInt64 d.id
  match svc.delete id with
  | .error e =>
      if e.typ = "DcimDeviceTypesDeleteDefault" ∧ e.code = 404 then
        { error := none, state := { d with id := "" }, trace := [.delete id] }
      else
        { error := some e, state := d, trace := [.delete id] }
  | .ok _ => { error := none, state := d, trace := [.delete id] }

/-! ## VLAN-group lookup data source (`src/netbox/data_source_netbox_vlan_group.go`) -/

/-- A dynamically-typed attribute value as returned by `d.Get` on the
legacy SDK: the concrete Go type is recovered by a runtime type assertion. -/
inductive AttrValue where
  | str (s : String)
  | int (n : Int)
deriving DecidableEq, Repr

/-- The Go type assertion `v, ok := x.(string)`: succeeds exactly on string
values. -/
def AttrValue.asString : AttrValue → Option String
  | .str s => some s
  | .int _ => none

/-- The `schema.ResourceData` of the VLAN-group data source: the filter
fields (`name`, `slug`, `scope_type` are `TypeString`, unset reads as `""`;
`scope_id` is `TypeInt`, unset reads as `0`) and the computed output
fields. -/
structure VlanGroupDataState where
  id : String := ""
  name : String := ""
  slug : String := ""
  scope_type : String := ""
  scope_id : Int := 0
  min_vid : Int := 0
  max_vid : Int := 0
  vlan_count : Int := 0
  description : String := ""
deriving DecidableEq, Repr

/-- `d.Get` on the VLAN-group data source returns the dynamically-typed
attribute value (`scope_id` is the only non-string field). -/
def VlanGroupDataState.get (d : VlanGroupDataState) : String → AttrValue
  | "name" => .str d.name
  | "slug" => .str d.slug
  | "scope_type" => .str d.scope_type
  | "scope_id" => .int d.scope_id
  | _ => .str ""

/-- The `ipam.IpamVlanGroupsListParams` query: `NewIpamVlanGroupsListParams`
leaves every field nil. -/
structure VlanGroupsListParams where
  limit : Option Int := none
  name : Option String := none
  slug : Option String := none
  scopeType : Option String := none
  scopeId : Option Int := none
deriving DecidableEq, Repr

/-- The query built by `dataSourceNetboxVlanGroupRead` (lines 74–88 of the
source): `Limit` is set to 2; `name`, `slug`, `scope_type` are set when the
string assertion succeeds and the value is non-empty. The `scope_id` branch
asserts `d.Get("scope_id").(string)` — but `scope_id` is `TypeInt`, so the
assertion never succeeds; even its body, `params.SetScopeID(params.ScopeID)`,
only re-assigns the field to itself. -/
def buildVlanGroupListParams (d : VlanGroupDataState) : VlanGroupsListParams :=
  let params : VlanGroupsListParams := {}
  let params := { params with limit := some 2 }
  let params := match (d.get "name").asString with
    | some name => if name ≠ "" then { params with name := some name } else params
    | none => params
  let params := match (d.get "slug").asString with
    | some slug => if slug ≠ "" then { params with slug := some slug } else params
    | none => params
  let params := match (d.get "scope_type").asString with
    | some scopeType =>
        if scopeType ≠ "" then { params with scopeType := some scopeType } else params
    | none => params
  let params := match (d.get "scope_id").asString with
    | some scopeID =>
        if scopeID ≠ "" then { params with scopeId := params.scopeId } else params
    | none => params
  params

/-- One entry of a VLAN-groups list response, with the fields the data
source decodes. -/
structure VlanGroupResult where
  id : Int
  name : String := ""
  slug : String := ""
  minVid : Int := 0
  maxVid : Int := 0
  vlanCount : Int := 0
  description : String := ""
deriving DecidableEq, Repr

/-- The payload of a successful `IpamVlanGroupsList` response: the total
match count (`*res.GetPayload().Count`) and the returned page of results. -/
structure VlanGroupsListPayload where
  count : Int
  results : List VlanGroupResult
deriving DecidableEq, Repr

/-- One Inventory Service call issued by the VLAN-group lookup. -/
inductive VlanGroupCall where
  | list (params : VlanGroupsListParams)
deriving DecidableEq, Repr

/-- Outcome of the VLAN-group lookup. -/
structure VlanGroupOutcome where
  error : Option GoError := none
  state : VlanGroupDataState
  trace : List VlanGroupCall := []
deriving DecidableEq, Repr

/-- The `errors.New` value returned on an ambiguous filter. -/
def ambiguousFilterError : GoError :=
  ⟨"errorString", 0, "more than one vlan group returned, specify a more narrow filter"⟩

/-- The `errors.New` value returned when nothing matches. -/
def notFoundFilterError : GoError :=
  ⟨"errorString", 0, "no vlan group found matching filter"⟩

/-- `dataSourceNetboxVlanGroupRead`: builds the limit-2 list query, issues
it, errors on count > 1 or count = 0, and otherwise stores the sole
result's identifier and decoded fields. (`Results[0]` is embedded as
`headD` on the page; the source reaches it only when `Count` is exactly 1.) -/
def dataSourceNetboxVlanGroupRead
    (svc : VlanGroupsListParams → Except GoError VlanGroupsListPayload)
    (d : VlanGroupDataState) : VlanGroupOutcome :=
  let params := buildVlanGroupListParams d
  match svc params with
  | .error e => { error := some e, state := d, trace := [.list params] }
  | .ok payload =>
      if payload.count > 1 then
        { error := some ambiguousFilterError, state := d, trace := [.list params] }
      else if payload.count = 0 then
        { error := some notFoundFilterError, state := d, trace := [.list params] }
      else
        let result := payload.results.headD ⟨0, "", "", 0, 0, 0, ""⟩
        { error := none
          state := { d with
            id := formatInt result.id
            name := result.name
            slug := result.slug
            min_vid := result.minVid
            max_vid := result.maxVid
            vlan_count := result.vlanCount
            description := result.description }
          trace := [.list params] }

/-! ## `strings.TrimSpace` and the IP-range diff-suppression predicates -/

/-- Go's `unicode.IsSpace`: '\t', '\n', '\v', '\f', '\r', ' ', U+0085,
U+00A0 and the Unicode White_Space code points. -/
def goIsSpace (c : Char) : Bool :=
  let n := c.toNat
  n == 9 || n == 10 || n == 11 || n == 12 || n == 13 || n == 32 ||
  n == 0x85 || n == 0xA0 || n == 0x1680 ||
  (decide (0x2000 ≤ n) && decide (n ≤ 0x200A)) ||
  n == 0x2028 || n == 0x2029 || n == 0x202F || n == 0x205F || n == 0x3000

/-- `strings.TrimSpace` on the character list: drop leading and trailing
space characters. -/
def trimList (l : List Char) : List Char :=
  ((l.dropWhile goIsSpace).reverse.dropWhile goIsSpace).reverse

/-- `strings.TrimSpace`. -/
def goTrimSpace (s : String) : String :=
  ⟨trimList s.data⟩

/-- The `DiffSuppressFunc` on the IP-range `description` field:
`strings.TrimSpace(oldValue) == strings.TrimSpace(newValue)`. -/
def descriptionDiffSuppress (_k oldValue newValue : String) (_d : IPRangeState) : Bool :=
  goTrimSpace oldValue == goTrimSpace newValue

/-- The `DiffSuppressFunc` on the IP-range `comments` field: textually the
same closure as the one on `description`. -/
def commentsDiffSuppress (_k oldValue newValue : String) (_d : IPRangeState) : Bool :=
  goTrimSpace oldValue == goTrimSpace newValue

/-- The non-whitespace content of a string: all its characters that are not
Go whitespace, in order. -/
def stripSpace (s : String) : String :=
  ⟨s.data.filter fun a => !goIsSpace a⟩

/-- Dropping a matched prefix past an all-matching block. -/
theorem dropWhile_append_of_all {α : Type} (p : α → Bool) {l : List α} (r : List α)
    (h : ∀ a ∈ l, p a) : (l ++ r).dropWhile p = r.dropWhile p := by
  induction l with
  | nil => rfl
  | cons a t ih =>
      have ha : p a = true := h a (by simp)
      simp only [List.cons_append, List.dropWhile_cons, ha, if_true]
      exact ih fun b hb => h b (by simp [hb])

/-- When the matched prefix ends inside `l`, appending `r` leaves the drop
untouched. -/
theorem dropWhile_append_of_ne {α : Type} (p : α → Bool) {l : List α} (r : List α)
    (h : l.dropWhile p ≠ []) : (l ++ r).dropWhile p = l.dropWhile p ++ r := by
  induction l with
  | nil => simp at h
  | cons a t ih =>
      by_cases ha : p a = true
      · simp only [List.cons_append, List.dropWhile_cons, ha, if_true]
        simp only [List.dropWhile_cons, ha, if_true] at h
        exact ih h
      · simp [List.dropWhile_cons, ha]

/-- Trimming ignores an all-space prefix. -/
theorem trimList_space_append {w : List Char} (l : List Char)
    (hw : ∀ a ∈ w, goIsSpace a) : trimList (w ++ l) = trimList l := by
  unfold trimList
  rw [dropWhile_append_of_all goIsSpace l hw]

/-- Trimming ignores an all-space suffix. -/
theorem trimList_append_space (l : List Char) {w : List Char}
    (hw : ∀ a ∈ w, goIsSpace a) : trimList (l ++ w) = trimList l := by
  unfold trimList
  by_cases h : l.dropWhile goIsSpace = []
  · have hl : ∀ a ∈ l, goIsSpace a := List.dropWhile_eq_nil_iff.mp h
    have : (l ++ w).dropWhile goIsSpace = [] := by
      rw [dropWhile_append_of_all goIsSpace w hl]
      exact List.dropWhile_eq_nil_iff.mpr hw
    rw [this, h]
  · rw [dropWhile_append_of_ne goIsSpace w h, List.reverse_append,
      dropWhile_append_of_all goIsSpace _ (fun a ha => hw a (List.mem_reverse.mp ha))]

/-- Filtering out the matched elements makes `dropWhile` invisible. -/
theorem filter_dropWhile {α : Type} (p : α → Bool) (l : List α) :
    (l.dropWhile p).filter (fun a => !p a) = l.filter fun a => !p a := by
  induction l with
  | nil => rfl
  | cons a t ih =>
      by_cases ha : p a = true
      · simp [List.dropWhile_cons, List.filter_cons, ha, ih]
      · simp [List.dropWhile_cons, List.filter_cons, ha]

/-- Trimming does not change the non-whitespace content. -/
theorem filter_trimList (l : List Char) :
    (trimList l).filter (fun a => !goIsSpace a) = l.filter fun a => !goIsSpace a := by
  unfold trimList
  rw [List.filter_reverse, filter_dropWhile, List.filter_reverse,
    List.reverse_reverse, filter_dropWhile]

/-! ## Claim theorems -/

/-- The query built by the VLAN-group lookup, in closed form: the limit is
always 2, the three string filters are set when non-empty, and `scope_id`
never reaches the query. -/
theorem buildVlanGroupListParams_eq (d : VlanGroupDataState) :
    buildVlanGroupListParams d =
      { limit := some 2
        name := if d.name = "" then none else some d.name
        slug := if d.slug = "" then none else some d.slug
        scopeType := if d.scope_type = "" then none else some d.scope_type
        scopeId := none } := by
  by_cases h1 : d.name = "" <;> by_cases h2 : d.slug = "" <;>
    by_cases h3 : d.scope_type = "" <;>
    simp [buildVlanGroupListParams, VlanGroupDataState.get, AttrValue.asString,
      h1, h2, h3]

/-- C1: the VLAN-group lookup issues a list query with limit 2; a count of
0 fails with the not-found error, a count of 2 or more fails with the
ambiguous-filter error, and a count of exactly 1 stores the sole result's
identifier and decoded fields (name, slug, min_vid, max_vid, vlan_count,
description) and returns without error. -/
theorem claim_C1_vlan_group_lookup
    (svc : VlanGroupsListParams → Except GoError VlanGroupsListPayload)
    (d : VlanGroupDataState) (payload : VlanGroupsListPayload)
    (hsvc : svc (buildVlanGroupListParams d) = .ok payload) :
    (buildVlanGroupListParams d).limit = some 2
  ∧ (payload.count = 0 →
      dataSourceNetboxVlanGroupRead svc d =
        { error := some notFoundFilterError, state := d
          trace := [.list (buildVlanGroupListParams d)] })
  ∧ (2 ≤ payload.count →
      dataSourceNetboxVlanGroupRead svc d =
        { error := some ambiguousFilterError, state := d
          trace := [.list (buildVlanGroupListParams d)] })
  ∧ (∀ r, payload.count = 1 → payload.results = [r] →
      dataSourceNetboxVlanGroupRead svc d =
        { error := none
          state := { d with
            id := formatInt r.id, name := r.name, slug := r.slug
            min_vid := r.minVid, max_vid := r.maxVid
            vlan_count := r.vlanCount, description := r.description }
          trace := [.list (buildVlanGroupListParams d)] }) := by
  refine ⟨by rw [buildVlanGroupListParams_eq], ?_, ?_, ?_⟩
  · intro h0
    simp [dataSourceNetboxVlanGroupRead, hsvc, h0]
  · intro h2
    have : payload.count > 1 := by omega
    simp [dataSourceNetboxVlanGroupRead, hsvc, this]
  · intro r h1 hr
    simp [dataSourceNetboxVlanGroupRead, hsvc, h1, hr]

/-- C1 witness: a service answering the query with exactly one result. -/
def svcVlanGroupOne : VlanGroupsListParams → Except GoError VlanGroupsListPayload :=
  fun _ => .ok ⟨1, [⟨5, "core", "core", 10, 20, 3, "the core group"⟩]⟩

theorem claim_C1_vlan_group_lookup_witness :
    dataSourceNetboxVlanGroupRead svcVlanGroupOne { slug := "core" } =
      { error := none
        state := { id := "5", name := "core", slug := "core", scope_type := ""
                   scope_id := 0, min_vid := 10, max_vid := 20, vlan_count := 3
                   description := "the core group" }
        trace := [.list { limit := some 2, slug := some "core" }] } := by
  have h := (claim_C1_vlan_group_lookup svcVlanGroupOne { slug := "core" }
    ⟨1, [⟨5, "core", "core", 10, 20, 3, "the core group"⟩]⟩ rfl).2.2.2
    ⟨5, "core", "core", 10, 20, 3, "the core group"⟩ rfl rfl
  rw [h, buildVlanGroupListParams_eq]
  decide

/-- C9: the `scope_id` input never reaches the list query, so two lookup
inputs differing only in `scope_id` issue the identical query and produce
the same error, the same trace and the same stored fields. -/
theorem claim_C9_scope_id_ignored
    (svc : VlanGroupsListParams → Except GoError VlanGroupsListPayload)
    (d : VlanGroupDataState) (n : Int) :
    buildVlanGroupListParams { d with scope_id := n } = buildVlanGroupListParams d
  ∧ (buildVlanGroupListParams d).scopeId = none
  ∧ (dataSourceNetboxVlanGroupRead svc { d with scope_id := n }).error =
      (dataSourceNetboxVlanGroupRead svc d).error
  ∧ (dataSourceNetboxVlanGroupRead svc { d with scope_id := n }).trace =
      (dataSourceNetboxVlanGroupRead svc d).trace
  ∧ (dataSourceNetboxVlanGroupRead svc { d with scope_id := n }).state =
      { (dataSourceNetboxVlanGroupRead svc d).state with scope_id := n } := by
  have hp : buildVlanGroupListParams { d with scope_id := n } =
      buildVlanGroupListParams d := by
    rw [buildVlanGroupListParams_eq, buildVlanGroupListParams_eq]
  refine ⟨hp, by rw [buildVlanGroupListParams_eq], ?_, ?_, ?_⟩ <;>
    · unfold dataSourceNetboxVlanGroupRead
      rw [hp]
      cases hres : svc (buildVlanGroupListParams d) with
      | error e => simp [hres]
      | ok payload =>
          by_cases hc1 : payload.count > 1
          · simp [hres, hc1]
          · by_cases hc0 : payload.count = 0 <;> simp [hres, hc1, hc0]

/-- C3: for both resource kinds, a Read answered by the service with the
typed 404 not-found response returns no error and clears the stored
identifier; any other service failure is returned to the caller. -/
theorem claim_C3_read_not_found
    (svcI : IPRangeService) (dI : IPRangeState)
    (svcD : DeviceTypeService) (dD : DeviceTypeState) (e : GoError) :
    (svcI.read (parseInt64 dI.id) = .error e →
       (e.typ = "IpamIPRangesReadDefault" ∧ e.code = 404 →
          resourceNetboxIPRangeRead svcI dI =
            { error := none, state := { dI with id := "" }
              trace := [.read (parseInt64 dI.id)] })
     ∧ (¬(e.typ = "IpamIPRangesReadDefault" ∧ e.code = 404) →
          resourceNetboxIPRangeRead svcI dI =
            { error := some e, state := dI
              trace := [.read (parseInt64 dI.id)] }))
  ∧ (svcD.read (parseInt64 dD.id) = .error e →
       (e.typ = "DcimDeviceTypesReadDefault" ∧ e.code = 404 →
          resourceNetboxDeviceTypeRead svcD dD =
            { error := none, state := { dD with id := "" }
              trace := [.read (parseInt64 dD.id)] })
     ∧ (¬(e.typ = "DcimDeviceTypesReadDefault" ∧ e.code = 404) →
          resourceNetboxDeviceTypeRead svcD dD =
            { error := some e, state := dD
              trace := [.read (parseInt64 dD.id)] })) := by
  constructor
  · intro hres
    constructor
    · intro h404
      simp [resourceNetboxIPRangeRead, hres, h404]
    · intro hno
      simp [resourceNetboxIPRangeRead, hres, hno]
  · intro hres
    constructor
    · intro h404
      simp [resourceNetboxDeviceTypeRead, hres, h404]
    · intro hno
      simp [resourceNetboxDeviceTypeRead, hres, hno]

/-- A service whose read answers the typed 404 not-found response. -/
def svcIPRange404 : IPRangeService :=
  { create := fun _ => .error ⟨"IpamIPRangesCreateDefault", 500, "boom"⟩
    read := fun _ => .error ⟨"IpamIPRangesReadDefault", 404, "not found"⟩
    update := fun _ _ => .error ⟨"IpamIPRangesUpdateDefault", 500, "boom"⟩
    delete := fun _ => .error ⟨"IpamIPRangesDeleteDefault", 404, "not found"⟩ }

/-- A device-type service whose read answers the typed 404 response. -/
def svcDeviceType404 : DeviceTypeService :=
  { create := fun _ => .error ⟨"DcimDeviceTypesCreateDefault", 500, "boom"⟩
    read := fun _ => .error ⟨"DcimDeviceTypesReadDefault", 404, "not found"⟩
    update := fun _ _ => .error ⟨"DcimDeviceTypesUpdateDefault", 500, "boom"⟩
    delete := fun _ => .error ⟨"DcimDeviceTypesDeleteDefault", 404, "not found"⟩ }

theorem claim_C3_read_not_found_witness :
    resourceNetboxIPRangeRead svcIPRange404 { id := "7" } =
      { error := none, state := { id := "" }, trace := [.read 7] }
  ∧ resourceNetboxDeviceTypeRead svcDeviceType404 { id := "7" } =
      { error := none, state := { id := "" }, trace := [.read 7] } := by
  have h := claim_C3_read_not_found svcIPRange404 { id := "7" }
    svcDeviceType404 { id := "7" } ⟨"IpamIPRangesReadDefault", 404, "not found"⟩
  have h2 := claim_C3_read_not_found svcIPRange404 { id := "7" }
    svcDeviceType404 { id := "7" } ⟨"DcimDeviceTypesReadDefault", 404, "not found"⟩
  refine ⟨?_, ?_⟩
  · have := (h.1 rfl).1 (by decide)
    rw [this]
    decide
  · have := (h2.2 rfl).1 (by decide)
    rw [this]
    decide

/-- C4: for both resource kinds, Delete treats the typed 404 not-found
response as success (no error, identifier cleared), so deleting an
already-absent entity succeeds; any other service failure is returned. -/
theorem claim_C4_delete_idempotent
    (svcI : IPRangeService) (dI : IPRangeState)
    (svcD : DeviceTypeService) (dD : DeviceTypeState) (e : GoError) :
    (svcI.delete (parseInt64 dI.id) = .error e →
       (e.typ = "IpamIPRangesDeleteDefault" ∧ e.code = 404 →
          resourceNetboxIPRangeDelete svcI dI =
            { error := none, state := { dI with id := "" }
              trace := [.delete (parseInt64 dI.id)] })
     ∧ (¬(e.typ = "IpamIPRangesDeleteDefault" ∧ e.code = 404) →
          resourceNetboxIPRangeDelete svcI dI =
            { error := some e, state := dI
              trace := [.delete (parseInt64 dI.id)] }))
  ∧ (svcD.delete (parseInt64 dD.id) = .error e →
       (e.typ = "DcimDeviceTypesDeleteDefault" ∧ e.code = 404 →
          resourceNetboxDeviceTypeDelete svcD dD =
            { error := none, state := { dD with id := "" }
              trace := [.delete (parseInt64 dD.id)] })
     ∧ (¬(e.typ = "DcimDeviceTypesDeleteDefault" ∧ e.code = 404) →
          resourceNetboxDeviceTypeDelete svcD dD =
            { error := some e, state := dD
              trace := [.delete (parseInt64 dD.id)] })) := by
  constructor
  · intro hres
    constructor
    · intro h404
      simp [resourceNetboxIPRangeDelete, hres, h404]
    · intro hno
      simp [resourceNetboxIPRangeDelete, hres, hno]
  · intro hres
    constructor
    · intro h404
      simp [resourceNetboxDeviceTypeDelete, hres, h404]
    · intro hno
      simp [resourceNetboxDeviceTypeDelete, hres, hno]

theorem claim_C4_delete_idempotent_witness :
    resourceNetboxIPRangeDelete svcIPRange404 { id := "7" } =
      { error := none, state := { id := "" }, trace := [.delete 7] }
  ∧ resourceNetboxDeviceTypeDelete svcDeviceType404 { id := "7" } =
      { error := none, state := { id := "" }, trace := [.delete 7] } := by
  have h := claim_C4_delete_idempotent svcIPRange404 { id := "7" }
    svcDeviceType404 { id := "7" } ⟨"IpamIPRangesDeleteDefault", 404, "not found"⟩
  have h2 := claim_C4_delete_idempotent svcIPRange404 { id := "7" }
    svcDeviceType404 { id := "7" } ⟨"DcimDeviceTypesDeleteDefault", 404, "not found"⟩
  refine ⟨?_, ?_⟩
  · have := (h.1 rfl).1 (by decide)
    rw [this]
    decide
  · have := (h2.2 rfl).1 (by decide)
    rw [this]
    decide

/-- C6: the diff-suppression predicate on the IP-range free-text fields
(`description` and `comments` carry the same closure) holds exactly when
the whitespace-trimmed values are equal; values differing only in
leading/trailing whitespace are suppressed, and values whose
non-whitespace content differs are not. -/
theorem claim_C6_diff_suppress :
    (∀ k oldValue newValue d,
        descriptionDiffSuppress k oldValue newValue d = true ↔
          goTrimSpace oldValue = goTrimSpace newValue)
  ∧ (∀ k oldValue newValue d,
        commentsDiffSuppress k oldValue newValue d =
          descriptionDiffSuppress k oldValue newValue d)
  ∧ (∀ k d (s w1 w2 w3 w4 : List Char),
        (∀ a ∈ w1, goIsSpace a) → (∀ a ∈ w2, goIsSpace a) →
        (∀ a ∈ w3, goIsSpace a) → (∀ a ∈ w4, goIsSpace a) →
        descriptionDiffSuppress k ⟨w1 ++ (s ++ w2)⟩ ⟨w3 ++ (s ++ w4)⟩ d = true)
  ∧ (∀ k oldValue newValue d,
        stripSpace oldValue ≠ stripSpace newValue →
          descriptionDiffSuppress k oldValue newValue d = false) := by
  refine ⟨?_, fun _ _ _ _ => rfl, ?_, ?_⟩
  · intro k oldValue newValue d
    simp [descriptionDiffSuppress]
  · intro k d s w1 w2 w3 w4 h1 h2 h3 h4
    have e1 : trimList (w1 ++ (s ++ w2)) = trimList s := by
      rw [trimList_space_append _ h1, trimList_append_space _ h2]
    have e2 : trimList (w3 ++ (s ++ w4)) = trimList s := by
      rw [trimList_space_append _ h3, trimList_append_space _ h4]
    have : goTrimSpace ⟨w1 ++ (s ++ w2)⟩ = goTrimSpace ⟨w3 ++ (s ++ w4)⟩ := by
      show (⟨trimList (w1 ++ (s ++ w2))⟩ : String) = ⟨trimList (w3 ++ (s ++ w4))⟩
      rw [e1, e2]
    simp [descriptionDiffSuppress, this]
  · intro k oldValue newValue d hne
    cases h : descriptionDiffSuppress k oldValue newValue d
    · rfl
    · exfalso
      apply hne
      have htrim : goTrimSpace oldValue = goTrimSpace newValue := by
        simpa [descriptionDiffSuppress] using h
      have hdata : trimList oldValue.data = trimList newValue.data :=
        congrArg String.data htrim
      show (⟨oldValue.data.filter fun a => !goIsSpace a⟩ : String) =
        ⟨newValue.data.filter fun a => !goIsSpace a⟩
      rw [← filter_trimList oldValue.data, ← filter_trimList newValue.data, hdata]

theorem claim_C6_diff_suppress_witness :
    descriptionDiffSuppress "description" ⟨[' '] ++ (['h', 'i'] ++ [])⟩
      ⟨[] ++ (['h', 'i'] ++ ['\n'])⟩ {} = true
  ∧ descriptionDiffSuppress "description" "hi" "ho" {} = false := by
  constructor
  · exact claim_C6_diff_suppress.2.2.1 "description" {} ['h', 'i'] [' '] [] [] ['\n']
      (by decide) (by decide) (by decide) (by decide)
  · exact claim_C6_diff_suppress.2.2.2 "description" "hi" "ho" {} (by decide)

/-- Modelled from the spec: an Inventory Service that faithfully stores a
submitted `WritableIPRange` answers a later read with its decoded form —
in particular the stored status value is echoed back. -/
def echoIPRangeRead (w : WritableIPRange) : IPRangeReadPayload :=
  { startAddress := w.startAddress
    endAddress := w.endAddress
    status := some ⟨w.status⟩
    vrf := w.vrf.map NestedRef.mk
    tenant := w.tenant.map NestedRef.mk
    role := w.role.map NestedRef.mk
    description := w.description
    comments := w.comments
    tags := w.tags }


/-- A successful read leaves the identifier in place, returns no error, and
stores the payload's status value (the prior status when the payload
carries none). -/
theorem resourceNetboxIPRangeRead_ok (svc : IPRangeService) (d : IPRangeState)
    (p : IPRangeReadPayload) (h : svc.read (parseInt64 d.id) = .ok p) :
    (resourceNetboxIPRangeRead svc d).error = none
  ∧ (resourceNetboxIPRangeRead svc d).state.status =
      (match p.status with | some st => some st.value | none => d.status)
  ∧ (resourceNetboxIPRangeRead svc d).state.id = d.id
  ∧ (resourceNetboxIPRangeRead svc d).trace = [.read (parseInt64 d.id)] := by
  obtain ⟨sa, ea, st, v, t, r, desc, com, tg⟩ := p
  simp only [resourceNetboxIPRangeRead, h]
  cases sa <;> cases ea <;> cases st <;> cases v <;> cases t <;> cases r <;> simp

/-- A successful create stores the formatted identifier and hands off to
Update, prepending the create call to its trace. -/
theorem resourceNetboxIPRangeCreate_ok (svc : IPRangeService) (d : IPRangeState)
    (newId : Int) (hc : svc.create (mkIPRangeCreateData d) = .ok newId) :
    resourceNetboxIPRangeCreate svc d =
      { resourceNetboxIPRangeUpdate svc { d with id := formatInt newId } with
        trace := .create (mkIPRangeCreateData d) ::
          (resourceNetboxIPRangeUpdate svc { d with id := formatInt newId }).trace } := by
  simp only [resourceNetboxIPRangeCreate, hc]

/-- A successful update call hands off to Read, prepending the update call
to its trace. -/
theorem resourceNetboxIPRangeUpdate_ok (svc : IPRangeService) (d : IPRangeState)
    (hu : svc.update (parseInt64 d.id) (mkIPRangeUpdateData d) = .ok ()) :
    resourceNetboxIPRangeUpdate svc d =
      { resourceNetboxIPRangeRead svc d with
        trace := .update (parseInt64 d.id) (mkIPRangeUpdateData d) ::
          (resourceNetboxIPRangeRead svc d).trace } := by
  simp only [resourceNetboxIPRangeUpdate, hu]

/-- A successful device-type create stores the formatted identifier and
hands off to Read, prepending the create call to its trace. -/
theorem resourceNetboxDeviceTypeCreate_ok (svc : DeviceTypeService)
    (d : DeviceTypeState) (newId : Int)
    (hc : svc.create (mkDeviceTypeCreateData d) = .ok newId) :
    resourceNetboxDeviceTypeCreate svc d =
      { resourceNetboxDeviceTypeRead svc { d with id := formatInt newId } with
        trace := .create (mkDeviceTypeCreateData d) ::
          (resourceNetboxDeviceTypeRead svc { d with id := formatInt newId }).trace } := by
  simp only [resourceNetboxDeviceTypeCreate, hc]

/-- The device-type read always issues exactly one get call, against the
parsed stored identifier. -/
theorem resourceNetboxDeviceTypeRead_trace (svc : DeviceTypeService)
    (d : DeviceTypeState) :
    (resourceNetboxDeviceTypeRead svc d).trace = [.read (parseInt64 d.id)] := by
  simp only [resourceNetboxDeviceTypeRead]
  cases h : svc.read (parseInt64 d.id) with
  | error e =>
      by_cases h404 : e.typ = "DcimDeviceTypesReadDefault" ∧ e.code = 404 <;>
        simp [h, h404]
  | ok p => simp [h]

/-- C5: with `status` omitted, both the create and the update payload carry
the default status "active", and against a service that echoes the stored
payload the Read after Create reports status "active"; the `status`
`ValidateFunc` accepts exactly "active", "reserved", "deprecated", and any
other set value is rejected as a validation error with no Inventory Service
call issued. -/
theorem claim_C5_status_default
    (svc : IPRangeService) (d : IPRangeState) (newId : Int) :
    (d.status = none →
       (mkIPRangeCreateData d).status = "active"
     ∧ (mkIPRangeUpdateData d).status = "active")
  ∧ (d.status = none →
       svc.create (mkIPRangeCreateData d) = .ok newId →
       svc.update (parseInt64 (formatInt newId))
         (mkIPRangeUpdateData { d with id := formatInt newId }) = .ok () →
       svc.read (parseInt64 (formatInt newId)) =
         .ok (echoIPRangeRead (mkIPRangeUpdateData { d with id := formatInt newId })) →
         (resourceNetboxIPRangeCreate svc d).error = none
       ∧ (resourceNetboxIPRangeCreate svc d).state.status = some "active")
  ∧ (∀ s, validateIPRangeStatus s = true ↔
       s ∈ (["active", "reserved", "deprecated"] : List String))
  ∧ (∀ s, d.status = some s → validateIPRangeStatus s = false →
       resourceNetboxIPRangeApplyCreate svc d =
         { error := some ⟨"ValidationError", 0,
             "expected status to be one of the valid values"⟩
           state := d, trace := [] }) := by
  refine ⟨?_, ?_, ?_, ?_⟩
  · intro h
    constructor
    · simp [mkIPRangeCreateData, IPRangeState.getStatus, h]
    · simp [mkIPRangeUpdateData, IPRangeState.getStatus, h]
  · intro h hc hu hr
    have hcreate := resourceNetboxIPRangeCreate_ok svc d newId hc
    have hupdate := resourceNetboxIPRangeUpdate_ok svc { d with id := formatInt newId }
      (by simpa using hu)
    have hread := resourceNetboxIPRangeRead_ok svc { d with id := formatInt newId }
      (echoIPRangeRead (mkIPRangeUpdateData { d with id := formatInt newId }))
      (by simpa using hr)
    have hst : (echoIPRangeRead
        (mkIPRangeUpdateData { d with id := formatInt newId })).status =
        some ⟨"active"⟩ := by
      simp [echoIPRangeRead, mkIPRangeUpdateData, IPRangeState.getStatus, h]
    rw [hcreate, hupdate]
    refine ⟨by simpa using hread.1, ?_⟩
    have := hread.2.1
    rw [hst] at this
    simpa using this
  · intro s
    simp [validateIPRangeStatus, stringInSlice, resourceNetboxIPRangeStatusOptions]
  · intro s hs hbad
    simp [resourceNetboxIPRangeApplyCreate, ipRangeSchemaValid, hs, hbad]

/-- A service that answers create with id 7, accepts updates, and echoes
the payload the update stored for the concrete record used in witnesses. -/
def echoIPRangeService : IPRangeService :=
  { create := fun _ => .ok 7
    read := fun _ => .ok (echoIPRangeRead (mkIPRangeUpdateData
      { id := "7", start_address := "10.0.0.1/24", end_address := "10.0.0.10/24" }))
    update := fun _ _ => .ok ()
    delete := fun _ => .ok () }

theorem claim_C5_status_default_witness :
    (resourceNetboxIPRangeCreate echoIPRangeService
      { start_address := "10.0.0.1/24", end_address := "10.0.0.10/24" }).error = none
  ∧ (resourceNetboxIPRangeCreate echoIPRangeService
      { start_address := "10.0.0.1/24", end_address := "10.0.0.10/24" }).state.status =
      some "active"
  ∧ validateIPRangeStatus "bogus" = false := by
  have h := (claim_C5_status_default echoIPRangeService
    { start_address := "10.0.0.1/24", end_address := "10.0.0.10/24" } 7).2.1
    rfl rfl rfl rfl
  refine ⟨h.1, h.2, ?_⟩
  have h2 := (claim_C5_status_default echoIPRangeService
    { start_address := "10.0.0.1/24", end_address := "10.0.0.10/24" } 7).2.2.1 "bogus"
  simpa using fun hmem => (h2.mp hmem)

/-- The IP-range record used by the C7 counterexample, with no tenant set. -/
def dIPRangeUnsetTenant : IPRangeState :=
  { id := "7", start_address := "10.0.0.1/24", end_address := "10.0.0.10/24" }

/-- The same record with `tenant_id` explicitly present and empty (0). -/
def dIPRangeZeroTenant : IPRangeState :=
  { dIPRangeUnsetTenant with tenant_id := some 0 }

/-- C7 counterexample: a record with `tenant_id` present-and-empty encodes
to the very same update payload as the record with `tenant_id` absent — the
payload omits the field in both cases, so the encoding does not distinguish
"unset" from "set-to-empty". -/
theorem claim_C7_counterexample :
    dIPRangeUnsetTenant.tenant_id = none
  ∧ dIPRangeZeroTenant.tenant_id = some 0
  ∧ mkIPRangeUpdateData dIPRangeZeroTenant = mkIPRangeUpdateData dIPRangeUnsetTenant
  ∧ (mkIPRangeUpdateData dIPRangeZeroTenant).tenant = none := by
  refine ⟨rfl, rfl, ?_, by decide⟩
  decide

/-- C7 (amended): an optional reference field (`tenant_id`, `role_id`,
`vrf_id`) reaches the update payload exactly when it is set to a non-zero
value; an absent field and a field set to the empty value 0 are both
omitted entirely (never sent as zero or null), so the encoding never emits
a clear and does not distinguish "unset" from "set-to-empty". -/
theorem claim_C7_reference_fields (d : IPRangeState) :
    ((d.tenant_id = none ∨ d.tenant_id = some 0) →
       (mkIPRangeUpdateData d).tenant = none)
  ∧ (∀ n, n ≠ 0 → d.tenant_id = some n → (mkIPRangeUpdateData d).tenant = some n)
  ∧ ((d.role_id = none ∨ d.role_id = some 0) →
       (mkIPRangeUpdateData d).role = none)
  ∧ (∀ n, n ≠ 0 → d.role_id = some n → (mkIPRangeUpdateData d).role = some n)
  ∧ ((d.vrf_id = none ∨ d.vrf_id = some 0) →
       (mkIPRangeUpdateData d).vrf = none)
  ∧ (∀ n, n ≠ 0 → d.vrf_id = some n → (mkIPRangeUpdateData d).vrf = some n) := by
  refine ⟨?_, ?_, ?_, ?_, ?_, ?_⟩
  · rintro (h | h) <;> simp [mkIPRangeUpdateData, getOkInt, h]
  · intro n hn h
    simp [mkIPRangeUpdateData, getOkInt, h, hn]
  · rintro (h | h) <;> simp [mkIPRangeUpdateData, getOkInt, h]
  · intro n hn h
    simp [mkIPRangeUpdateData, getOkInt, h, hn]
  · rintro (h | h) <;> simp [mkIPRangeUpdateData, getOkInt, h]
  · intro n hn h
    simp [mkIPRangeUpdateData, getOkInt, h, hn]

theorem claim_C7_reference_fields_witness :
    (mkIPRangeUpdateData dIPRangeUnsetTenant).tenant = none
  ∧ (mkIPRangeUpdateData { dIPRangeUnsetTenant with tenant_id := some 15 }).tenant =
      some 15 := by
  refine ⟨(claim_C7_reference_fields dIPRangeUnsetTenant).1 (Or.inl rfl), ?_⟩
  exact (claim_C7_reference_fields
    { dIPRangeUnsetTenant with tenant_id := some 15 }).2.1 15 (by decide) rfl

/-- The IP-range read always issues exactly one get call, against the
parsed stored identifier. -/
theorem resourceNetboxIPRangeRead_trace (svc : IPRangeService) (d : IPRangeState) :
    (resourceNetboxIPRangeRead svc d).trace = [.read (parseInt64 d.id)] := by
  cases h : svc.read (parseInt64 d.id) with
  | error e =>
      by_cases h404 : e.typ = "IpamIPRangesReadDefault" ∧ e.code = 404 <;>
        simp [resourceNetboxIPRangeRead, h, h404]
  | ok p => simp [resourceNetboxIPRangeRead, h]

/-- A service answering every IP-range endpoint successfully, used by the
C2 counterexample. -/
def svcIPRangeOk : IPRangeService :=
  { create := fun _ => .ok 7
    read := fun _ => .ok {}
    update := fun _ _ => .ok ()
    delete := fun _ => .ok () }

/-- The IP-range record with only the required fields set. -/
def dIPRange0 : IPRangeState :=
  { start_address := "10.0.0.1/24", end_address := "10.0.0.10/24" }

/-- C2 counterexample: an IP-range Create against an all-successful service
succeeds but issues create, update, get — not the claimed create-then-get
sequence with no intervening call: `resourceNetboxIPRangeCreate` returns
`resourceNetboxIPRangeUpdate(d, m)`, which issues the update call before
Read's get call. -/
theorem claim_C2_counterexample :
    (resourceNetboxIPRangeCreate svcIPRangeOk dIPRange0).error = none
  ∧ (resourceNetboxIPRangeCreate svcIPRangeOk dIPRange0).trace.map IPRangeCall.kind =
      [.create, .update, .read]
  ∧ (resourceNetboxIPRangeCreate svcIPRangeOk dIPRange0).trace.map IPRangeCall.kind ≠
      [.create, .read] := by
  have hc := resourceNetboxIPRangeCreate_ok svcIPRangeOk dIPRange0 7 rfl
  have hu := resourceNetboxIPRangeUpdate_ok svcIPRangeOk
    { dIPRange0 with id := formatInt 7 } rfl
  have hr := resourceNetboxIPRangeRead_ok svcIPRangeOk
    { dIPRange0 with id := formatInt 7 } {} rfl
  rw [hc, hu]
  refine ⟨by simpa using hr.1, ?_, ?_⟩ <;>
    simp [resourceNetboxIPRangeRead_trace, IPRangeCall.kind]

/-- C2 (amended): Create on success stores the identifier returned by the
create call and then populates computed fields by re-reading. The
device-type adapter issues exactly the sequence create call then get call;
the IP-range adapter instead invokes Update after storing the identifier,
issuing create, then update, then (when the update succeeds) get. -/
theorem claim_C2_create_sequences
    (svcD : DeviceTypeService) (dD : DeviceTypeState)
    (svcI : IPRangeService) (dI : IPRangeState) (idD idI : Int) :
    (svcD.create (mkDeviceTypeCreateData dD) = .ok idD →
       (resourceNetboxDeviceTypeCreate svcD dD).trace =
         [.create (mkDeviceTypeCreateData dD), .read (parseInt64 (formatInt idD))]
     ∧ (resourceNetboxDeviceTypeCreate svcD dD).trace.map DeviceTypeCall.kind =
         [.create, .read])
  ∧ (svcI.create (mkIPRangeCreateData dI) = .ok idI →
       svcI.update (parseInt64 (formatInt idI))
         (mkIPRangeUpdateData { dI with id := formatInt idI }) = .ok () →
       (resourceNetboxIPRangeCreate svcI dI).trace =
         [.create (mkIPRangeCreateData dI),
          .update (parseInt64 (formatInt idI))
            (mkIPRangeUpdateData { dI with id := formatInt idI }),
          .read (parseInt64 (formatInt idI))]
     ∧ (resourceNetboxIPRangeCreate svcI dI).trace.map IPRangeCall.kind =
         [.create, .update, .read]) := by
  constructor
  · intro h
    rw [resourceNetboxDeviceTypeCreate_ok svcD dD idD h]
    constructor
    · simp [resourceNetboxDeviceTypeRead_trace]
    · simp [resourceNetboxDeviceTypeRead_trace, DeviceTypeCall.kind]
  · intro hc hu
    rw [resourceNetboxIPRangeCreate_ok svcI dI idI hc,
      resourceNetboxIPRangeUpdate_ok svcI { dI with id := formatInt idI }
        (by simpa using hu)]
    constructor
    · simp [resourceNetboxIPRangeRead_trace]
    · simp [resourceNetboxIPRangeRead_trace, IPRangeCall.kind]

/-- A device-type service answering every endpoint successfully. -/
def svcDeviceTypeOk : DeviceTypeService :=
  { create := fun _ => .ok 7
    read := fun _ => .ok { manufacturer := ⟨3⟩ }
    update := fun _ _ => .ok ()
    delete := fun _ => .ok () }

/-- The device-type record with only the required fields set. -/
def dDeviceType0 : DeviceTypeState :=
  { model := "Catalyst 9300", manufacturer_id := some 3 }

theorem claim_C2_create_sequences_witness :
    (resourceNetboxDeviceTypeCreate svcDeviceTypeOk dDeviceType0).trace.map
      DeviceTypeCall.kind = [.create, .read]
  ∧ (resourceNetboxIPRangeCreate svcIPRangeOk dIPRange0).trace.map IPRangeCall.kind =
      [.create, .update, .read] := by
  have h := claim_C2_create_sequences svcDeviceTypeOk dDeviceType0
    svcIPRangeOk dIPRange0 7 7
  exact ⟨(h.1 rfl).2, (h.2 rfl rfl).2⟩

/-- C8: every adapter operation confronted with a service failure (other
than the typed 404 handled by Read/Delete) returns exactly the service's
error value, leaves the state untouched, and issues no further service
call — the failing call is the last element of the trace; when the update
call inside the IP-range Create fails, the create sequence likewise stops
there. -/
theorem claim_C8_error_propagation
    (svcI : IPRangeService) (dI : IPRangeState)
    (svcD : DeviceTypeService) (dD : DeviceTypeState)
    (svcL : VlanGroupsListParams → Except GoError VlanGroupsListPayload)
    (dL : VlanGroupDataState) (e : GoError) (newId : Int) :
    (svcI.create (mkIPRangeCreateData dI) = .error e →
       resourceNetboxIPRangeCreate svcI dI =
         { error := some e, state := dI
           trace := [.create (mkIPRangeCreateData dI)] })
  ∧ (svcI.update (parseInt64 dI.id) (mkIPRangeUpdateData dI) = .error e →
       resourceNetboxIPRangeUpdate svcI dI =
         { error := some e, state := dI
           trace := [.update (parseInt64 dI.id) (mkIPRangeUpdateData dI)] })
  ∧ (svcI.read (parseInt64 dI.id) = .error e →
       ¬(e.typ = "IpamIPRangesReadDefault" ∧ e.code = 404) →
       resourceNetboxIPRangeRead svcI dI =
         { error := some e, state := dI, trace := [.read (parseInt64 dI.id)] })
  ∧ (svcI.delete (parseInt64 dI.id) = .error e →
       ¬(e.typ = "IpamIPRangesDeleteDefault" ∧ e.code = 404) →
       resourceNetboxIPRangeDelete svcI dI =
         { error := some e, state := dI, trace := [.delete (parseInt64 dI.id)] })
  ∧ (svcD.create (mkDeviceTypeCreateData dD) = .error e →
       resourceNetboxDeviceTypeCreate svcD dD =
         { error := some e, state := dD
           trace := [.create (mkDeviceTypeCreateData dD)] })
  ∧ (svcD.update (parseInt64 dD.id) (mkDeviceTypeUpdateData dD) = .error e →
       resourceNetboxDeviceTypeUpdate svcD dD =
         { error := some e, state := dD
           trace := [.update (parseInt64 dD.id) (mkDeviceTypeUpdateData dD)] })
  ∧ (svcD.read (parseInt64 dD.id) = .error e →
       ¬(e.typ = "DcimDeviceTypesReadDefault" ∧ e.code = 404) →
       resourceNetboxDeviceTypeRead svcD dD =
         { error := some e, state := dD, trace := [.read (parseInt64 dD.id)] })
  ∧ (svcD.delete (parseInt64 dD.id) = .error e →
       ¬(e.typ = "DcimDeviceTypesDeleteDefault" ∧ e.code = 404) →
       resourceNetboxDeviceTypeDelete svcD dD =
         { error := some e, state := dD, trace := [.delete (parseInt64 dD.id)] })
  ∧ (svcL (buildVlanGroupListParams dL) = .error e →
       dataSourceNetboxVlanGroupRead svcL dL =
         { error := some e, state := dL
           trace := [.list (buildVlanGroupListParams dL)] })
  ∧ (svcI.create (mkIPRangeCreateData dI) = .ok newId →
       svcI.update (parseInt64 (formatInt newId))
         (mkIPRangeUpdateData { dI with id := formatInt newId }) = .error e →
         (resourceNetboxIPRangeCreate svcI dI).error = some e
       ∧ (resourceNetboxIPRangeCreate svcI dI).trace.map IPRangeCall.kind =
           [.create, .update]) := by
  refine ⟨?_, ?_, ?_, ?_, ?_, ?_, ?_, ?_, ?_, ?_⟩
  · intro h
    simp only [resourceNetboxIPRangeCreate, h]
  · intro h
    simp only [resourceNetboxIPRangeUpdate, h]
  · intro h hno
    simp [resourceNetboxIPRangeRead, h, hno]
  · intro h hno
    simp [resourceNetboxIPRangeDelete, h, hno]
  · intro h
    simp only [resourceNetboxDeviceTypeCreate, h]
  · intro h
    simp only [resourceNetboxDeviceTypeUpdate, h]
  · intro h hno
    simp [resourceNetboxDeviceTypeRead, h, hno]
  · intro h hno
    simp [resourceNetboxDeviceTypeDelete, h, hno]
  · intro h
    simp only [dataSourceNetboxVlanGroupRead, h]
  · intro hc hu
    rw [resourceNetboxIPRangeCreate_ok svcI dI newId hc]
    have hupd : resourceNetboxIPRangeUpdate svcI { dI with id := formatInt newId } =
        { error := some e, state := { dI with id := formatInt newId }
          trace := [.update (parseInt64 (formatInt newId))
            (mkIPRangeUpdateData { dI with id := formatInt newId })] } := by
      simp only [resourceNetboxIPRangeUpdate]
      rw [hu]
    rw [hupd]
    simp [IPRangeCall.kind]

/-- An IP-range service failing every endpoint with a transport error. -/
def svcIPRangeFail : IPRangeService :=
  { create := fun _ => .error ⟨"transport", 500, "boom"⟩
    read := fun _ => .error ⟨"transport", 500, "boom"⟩
    update := fun _ _ => .error ⟨"transport", 500, "boom"⟩
    delete := fun _ => .error ⟨"transport", 500, "boom"⟩ }

/-- A device-type service failing every endpoint with a transport error. -/
def svcDeviceTypeFail : DeviceTypeService :=
  { create := fun _ => .error ⟨"transport", 500, "boom"⟩
    read := fun _ => .error ⟨"transport", 500, "boom"⟩
    update := fun _ _ => .error ⟨"transport", 500, "boom"⟩
    delete := fun _ => .error ⟨"transport", 500, "boom"⟩ }

/-- A VLAN-group list endpoint failing with a transport error. -/
def svcVlanGroupFail : VlanGroupsListParams → Except GoError VlanGroupsListPayload :=
  fun _ => .error ⟨"transport", 500, "boom"⟩

theorem claim_C8_error_propagation_witness :
    resourceNetboxIPRangeCreate svcIPRangeFail dIPRange0 =
      { error := some ⟨"transport", 500, "boom"⟩, state := dIPRange0
        trace := [.create (mkIPRangeCreateData dIPRange0)] }
  ∧ resourceNetboxIPRangeRead svcIPRangeFail { id := "7" } =
      { error := some ⟨"transport", 500, "boom"⟩, state := { id := "7" }
        trace := [.read 7] }
  ∧ resourceNetboxDeviceTypeDelete svcDeviceTypeFail { id := "7" } =
      { error := some ⟨"transport", 500, "boom"⟩, state := { id := "7" }
        trace := [.delete 7] }
  ∧ dataSourceNetboxVlanGroupRead svcVlanGroupFail { slug := "core" } =
      { error := some ⟨"transport", 500, "boom"⟩, state := { slug := "core" }
        trace := [.list (buildVlanGroupListParams { slug := "core" })] } := by
  have h1 := claim_C8_error_propagation svcIPRangeFail dIPRange0
    svcDeviceTypeFail { id := "7" } svcVlanGroupFail { slug := "core" }
    ⟨"transport", 500, "boom"⟩ 0
  have h2 := claim_C8_error_propagation svcIPRangeFail { id := "7" }
    svcDeviceTypeFail { id := "7" } svcVlanGroupFail { slug := "core" }
    ⟨"transport", 500, "boom"⟩ 0
  refine ⟨h1.1 rfl, ?_, ?_, h1.2.2.2.2.2.2.2.2.1 rfl⟩
  · rw [h2.2.2.1 rfl (by decide)]
    decide
  · rw [h1.2.2.2.2.2.2.2.1 rfl (by decide)]
    decide
